import Mathlib

/-!
Shallow embedding of the Adaptive Personalization & Progress-Analytics Engine
of the `aigenpath01` repository, and proofs about it.

The embedding follows the Python source under `src/`:
  * `src/ai_services/gemini_client.py`   — plan generation (AI call + demo fallback)
  * `src/ai_services/mcp_integration.py` — context aggregation, adaptive path
    orchestration, checkpoints, progress tracking, trend computation, and the
    adaptation advisor
  * `src/services/learning_service.py`   — request validation and completion
    percentage computation

Python `dict`s (which preserve insertion order, and overwrite in place on an
existing key) are modelled as association lists with `dictInsert`.  External
calls (the Gemini network call, the LangChain pipeline) are modelled by
passing their outcome as an explicit argument.  Wall-clock timestamps
(`datetime.now().isoformat()`) are modelled by threading an explicit `now`
string.  Python numbers that the analytics code averages are modelled as `ℚ`.
-/

namespace AigenPath

/-- Python `range(start, stop, step)` for a positive `step`, as a list. -/
def pyRange (start stop step : Nat) : List Nat :=
  List.range' start ((stop - start + step - 1) / step) step

/-- Python-dict insertion into an insertion-ordered association list:
if the key is present the value is overwritten in place, otherwise the
pair is appended at the end (CPython dict semantics). -/
def dictInsert {α β : Type} [BEq α] (d : List (α × β)) (k : α) (v : β) :
    List (α × β) :=
  if d.any (fun p => p.1 == k) then
    d.map (fun p => if p.1 == k then (k, v) else p)
  else
    d ++ [(k, v)]

/-! ## Data model (`src/ai_services/gemini_client.py`, `mcp_integration.py`) -/

/-- One element of `daily_plans` as built by the source (a JSON object;
fields that only some code paths set default to `""` / `[]`). -/
structure DailyPlan where
  day : Nat
  title : String
  objectives : List String
  content : String
  activities : List String
  estimated_time : String
  resources : List String
  key_concepts : List String
  checkpoint : String := ""
  alternatives : List String := []
  metacognitive_element : String := ""
  deriving Repr, DecidableEq

/-- One adaptive checkpoint as built by
`MCPIntegration._generate_checkpoints`. -/
structure Checkpoint where
  day : Nat
  type : String
  description : String
  adaptive_actions : List String
  deriving Repr, DecidableEq

/-- A learning path as the source passes it around (a JSON-ish record; fields
that only some generation routes set default to the JSON-absent sentinel). -/
structure LearningPath where
  goal : String
  duration_days : Nat
  difficulty : String
  type : String
  description : String := ""
  created_with_ai : Bool := false
  daily_plans : List DailyPlan
  context_aware : Bool := false
  learning_strategy : String := ""
  /-- `adaptation_points` strings of the demo MCP path (absent elsewhere). -/
  adaptation_points : List String := []
  /-- `mcp_features.adaptive_checkpoints` set by `_add_mcp_features`. -/
  mcp_adaptive_checkpoints : List Checkpoint := []
  /-- `mcp_features.personalization_level` set by `_add_mcp_features`. -/
  personalization_level : String := ""
  deriving Repr, DecidableEq

/-! ## Generation (`src/ai_services/gemini_client.py`) -/

/-- `GeminiClient._generate_demo_learning_path`: the deterministic local
fallback for normal paths — one `DailyPlan` per `day in range(1, duration+1)`. -/
def generate_demo_learning_path (goal : String) (duration : Nat)
    (difficulty : String) (include_practice : Bool) : LearningPath :=
  { goal := goal
    duration_days := duration
    difficulty := difficulty
    type := "normal"
    description := "A comprehensive " ++ toString duration ++
      "-day journey to master " ++ goal ++ " at " ++ difficulty ++ " level"
    created_with_ai := false
    daily_plans := (pyRange 1 (duration + 1) 1).map (fun day =>
      { day := day
        title := if day = 1 then
            "Day " ++ toString day ++ ": Introduction to " ++ goal
          else
            "Day " ++ toString day ++ ": Advanced " ++ goal ++ " Concepts"
        objectives := ["Understand key concepts of " ++ goal,
          "Apply " ++ difficulty ++ " level techniques",
          if include_practice then "Complete practical exercises"
            else "Review theoretical concepts"]
        content := "This is day " ++ toString day ++ " of your " ++ goal ++
          " learning journey. Focus on building foundational knowledge and applying concepts through practice."
        activities := ["Read about " ++ goal ++ " fundamentals",
          "Watch educational videos on " ++ goal,
          if include_practice then "Complete hands-on exercises"
            else "Review key concepts"]
        estimated_time := "2-3 hours"
        resources := ["Introduction to " ++ goal ++ " - Online Tutorial",
          goal ++ " Best Practices Guide",
          "Practice exercises for " ++ goal]
        key_concepts := [goal ++ " fundamentals",
          difficulty ++ " level applications",
          "Real-world examples"] }) }

/-- `GeminiClient._generate_demo_mcp_learning_path`: the deterministic local
fallback for MCP paths.  Note `adaptation_points` is built from
`range(3, duration, 3)` — the stop bound `duration` is exclusive. -/
def generate_demo_mcp_learning_path (goal : String) (duration : Nat)
    (difficulty : String) : LearningPath :=
  { goal := goal
    duration_days := duration
    difficulty := difficulty
    type := "mcp"
    context_aware := true
    description := "An adaptive, context-aware " ++ toString duration ++
      "-day learning path for " ++ goal
    learning_strategy := "Model Context Protocol approach with adaptive content delivery"
    adaptation_points := (pyRange 3 duration 3).map (fun i =>
      "Day " ++ toString i ++ ": Progress checkpoint")
    created_with_ai := false
    daily_plans := (pyRange 1 (duration + 1) 1).map (fun day =>
      { day := day
        title := "Day " ++ toString day ++ ": Adaptive " ++ goal ++ " Learning"
        objectives := ["Context-aware learning of " ++ goal,
          "Metacognitive reflection on " ++ goal,
          "Adaptive skill development"]
        content := "Day " ++ toString day ++
          " focuses on adaptive learning strategies for " ++ goal ++
          ", adjusting to your learning style and progress."
        activities := ["Adaptive exercises in " ++ goal,
          "Self-assessment and reflection",
          "Progress-based activity selection"]
        estimated_time := "Flexible 1-3 hours"
        resources := ["Adaptive " ++ goal ++ " Resources",
          "Metacognitive Learning Guide",
          "Progress Tracking Tools"]
        key_concepts := ["Adaptive " ++ goal ++ " concepts",
          "Learning strategy awareness",
          "Progress self-monitoring"]
        checkpoint := "Day " ++ toString day ++ " progress assessment"
        alternatives := ["Alternative approach for " ++ goal,
          "Advanced " ++ goal ++ " path option"]
        metacognitive_element :=
          "Reflection on your learning process and strategy adjustment" }) }

/-- Outcome of the external Gemini generation call, as observed by
`generate_normal_learning_path` / `generate_mcp_learning_path`:
no configured client, an exception raised by the call or by JSON parsing,
an empty `response.text`, or successfully parsed JSON. -/
inductive GeminiOutcome : Type where
  | noClient : GeminiOutcome
  | error (msg : String) : GeminiOutcome
  | emptyText : GeminiOutcome
  | parsed (lp : LearningPath) : GeminiOutcome
  deriving Repr, DecidableEq

/-- `GeminiClient.generate_normal_learning_path`: on a parsed response the
result is returned as-is with `type`/`created_with_ai` stamped — no
structural validation is performed; every other outcome falls back to the
demo path. -/
def generate_normal_learning_path (outcome : GeminiOutcome) (goal : String)
    (duration : Nat) (difficulty : String) (include_practice : Bool) :
    LearningPath :=
  match outcome with
  | .parsed lp => { lp with type := "normal", created_with_ai := true }
  | _ => generate_demo_learning_path goal duration difficulty include_practice

/-- `GeminiClient.generate_mcp_learning_path`: same shape as the normal
generator; every non-parsed outcome falls back to the demo MCP path. -/
def generate_mcp_learning_path (outcome : GeminiOutcome) (goal : String)
    (duration : Nat) (difficulty : String) : LearningPath :=
  match outcome with
  | .parsed lp => { lp with type := "mcp", created_with_ai := true }
  | _ => generate_demo_mcp_learning_path goal duration difficulty

/-! ## Context aggregation (`src/ai_services/mcp_integration.py`) -/

/-- `_get_learning_profile`'s hardcoded result. -/
structure LearningProfile where
  learning_style : String
  pace_preference : String
  complexity_tolerance : String
  previous_experience : List String
  strengths : List String
  areas_for_improvement : List String
  deriving Repr, DecidableEq

/-- One entry of `_get_progress_history`'s result. -/
structure HistoryEntry where
  path_id : String
  completion_rate : ℚ
  average_time_per_day : ℚ
  difficulty_rating : String
  satisfaction_score : ℚ
  deriving Repr, DecidableEq

/-- `_get_user_preferences`'s hardcoded result. -/
structure Preferences where
  preferred_content_types : List String
  study_time_slots : List String
  notification_frequency : String
  feedback_style : String
  deriving Repr, DecidableEq

/-- `_get_performance_metrics`'s hardcoded result. -/
structure PerformanceMetrics where
  average_completion_rate : ℚ
  consistency_score : ℚ
  learning_velocity : String
  retention_rate : ℚ
  engagement_level : String
  deriving Repr, DecidableEq

/-- The context dict built by `MCPIntegration.collect_user_context`. -/
structure UserContext where
  user_id : String
  timestamp : String
  learning_profile : LearningProfile
  progress_history : List HistoryEntry
  preferences : Preferences
  performance_metrics : PerformanceMetrics
  deriving Repr, DecidableEq

/-- `MCPIntegration._get_learning_profile` (hardcoded defaults in source). -/
def get_learning_profile (_user_id : String) : LearningProfile :=
  { learning_style := "visual"
    pace_preference := "moderate"
    complexity_tolerance := "medium"
    previous_experience := []
    strengths := []
    areas_for_improvement := [] }

/-- `MCPIntegration._get_progress_history` (hardcoded in source;
`85`, `120` minutes, `4.2` satisfaction). -/
def get_progress_history (_user_id : String) : List HistoryEntry :=
  [{ path_id := "previous_path_1"
     completion_rate := 85
     average_time_per_day := 120
     difficulty_rating := "medium"
     satisfaction_score := 21/5 }]

/-- `MCPIntegration._get_user_preferences` (hardcoded in source). -/
def get_user_preferences (_user_id : String) : Preferences :=
  { preferred_content_types := ["video", "text", "interactive"]
    study_time_slots := ["morning", "evening"]
    notification_frequency := "daily"
    feedback_style := "encouraging" }

/-- `MCPIntegration._get_performance_metrics` (hardcoded in source;
`78.5`, `85`, `82`). -/
def get_performance_metrics (_user_id : String) : PerformanceMetrics :=
  { average_completion_rate := 157/2
    consistency_score := 85
    learning_velocity := "moderate"
    retention_rate := 82
    engagement_level := "high" }

/-! ## Progress analytics state (`MCPIntegration.learning_analytics`) -/

/-- The record stored under `daily_progress[str(day)]` by
`track_learning_progress`. -/
structure DayRecord where
  completed : Bool
  time_spent : ℚ
  difficulty_rating : ℚ
  satisfaction : ℚ
  timestamp : String
  deriving Repr, DecidableEq

/-- One entry of `performance_trends` as built by
`_update_performance_trends`. -/
structure Trend where
  date : String
  completion_rate : ℚ
  avg_time_spent : ℚ
  avg_difficulty_rating : ℚ
  days_analyzed : Nat
  deriving Repr, DecidableEq

/-- `learning_analytics[user_id][path_id]`: the per-(user, path) analytics
dict.  `daily_progress` is keyed by day number (the source uses `str(day)`;
decimal rendering of `Nat` is injective so `Nat` keys are equivalent). -/
structure PathAnalytics where
  daily_progress : List (Nat × DayRecord)
  performance_trends : List Trend
  adaptation_history : List String
  deriving Repr, DecidableEq

/-- The value `learning_analytics[user_id][path_id]` is initialized to. -/
def emptyAnalytics : PathAnalytics :=
  { daily_progress := [], performance_trends := [], adaptation_history := [] }

/-- The whole `learning_analytics` nested dict. -/
abbrev AnalyticsStore : Type := List (String × List (String × PathAnalytics))

/-- The `MCPIntegration` instance state (`context_store` and
`learning_analytics`). -/
structure MCPState where
  context_store : List (String × UserContext)
  learning_analytics : AnalyticsStore
  deriving Repr, DecidableEq

/-- `MCPIntegration.collect_user_context`: builds the context from the
(hardcoded) profile/history/preference/metric lookups, **stores it in
`self.context_store[user_id]`**, and returns it.  `now` models
`datetime.now().isoformat()`. -/
def collect_user_context (s : MCPState) (user_id now : String) :
    UserContext × MCPState :=
  let context : UserContext :=
    { user_id := user_id
      timestamp := now
      learning_profile := get_learning_profile user_id
      progress_history := get_progress_history user_id
      preferences := get_user_preferences user_id
      performance_metrics := get_performance_metrics user_id }
  (context, { s with context_store := dictInsert s.context_store user_id context })

/-- The dict passed by callers to `track_learning_progress` as
`daily_progress` (field defaults in the source: `day` 1, `completed` False,
`time_spent` 0, `difficulty_rating` 3, `satisfaction` 3). -/
structure ProgressIn where
  day : Nat
  completed : Bool
  time_spent : ℚ
  difficulty_rating : ℚ
  satisfaction : ℚ
  deriving Repr, DecidableEq

/-- The `DayRecord` that `track_learning_progress` stores for a report
(`timestamp` is `datetime.now().isoformat()`, modelled by `now`). -/
def recordOf (now : String) (p : ProgressIn) : DayRecord :=
  { completed := p.completed
    time_spent := p.time_spent
    difficulty_rating := p.difficulty_rating
    satisfaction := p.satisfaction
    timestamp := now }

/-- The trend `_update_performance_trends` computes from a `daily_progress`
dict, or `none` when the dict is empty (`if recent_days:` fails).
`recent_days = list(daily_progress.keys())[-7:]` — the last at most 7 keys
in dict insertion order; sums/averages are over those keys' records. -/
def computeTrend (now : String) (dp : List (Nat × DayRecord)) : Option Trend :=
  let recent := dp.drop (dp.length - 7)
  if recent.isEmpty then none
  else some
    { date := now
      completion_rate :=
        ((recent.countP (fun e => e.2.completed) : ℚ) / recent.length) * 100
      avg_time_spent := (recent.map (fun e => e.2.time_spent)).sum / recent.length
      avg_difficulty_rating :=
        (recent.map (fun e => e.2.difficulty_rating)).sum / recent.length
      days_analyzed := recent.length }

/-- `MCPIntegration._update_performance_trends` acting on one
`PathAnalytics` value: append the freshly computed trend and keep only the
last 30 (`[-30:]`). -/
def update_performance_trends (now : String) (a : PathAnalytics) :
    PathAnalytics :=
  match computeTrend now a.daily_progress with
  | none => a
  | some t =>
    let ts := a.performance_trends ++ [t]
    { a with performance_trends := ts.drop (ts.length - 30) }

/-- The core of `MCPIntegration.track_learning_progress` on one
`PathAnalytics` value: upsert the day's record, then recompute trends.
No validation of `day` is performed. -/
def trackPath (now : String) (a : PathAnalytics) (p : ProgressIn) :
    PathAnalytics :=
  update_performance_trends now
    { a with daily_progress := dictInsert a.daily_progress p.day (recordOf now p) }

/-- `MCPIntegration.track_learning_progress`: initializes the missing
nesting levels of `learning_analytics`, stores the day's record, recomputes
trends, and returns the updated store together with the per-path analytics
object the source returns. -/
def track_learning_progress (now : String) (store : AnalyticsStore)
    (user_id path_id : String) (p : ProgressIn) :
    AnalyticsStore × PathAnalytics :=
  let userMap := ((store.lookup user_id).getD [])
  let a := ((userMap.lookup path_id).getD emptyAnalytics)
  let a' := trackPath now a p
  (dictInsert store user_id (dictInsert userMap path_id a'), a')

/-! ## Adaptive path orchestration (`MCPIntegration.generate_adaptive_path`) -/

/-- `MCPIntegration._generate_checkpoints`: one checkpoint per
`day in range(3, duration + 1, 3)` — the stop bound `duration + 1` makes
`duration` itself inclusive. -/
def generate_checkpoints (duration : Nat) : List Checkpoint :=
  (pyRange 3 (duration + 1) 3).map (fun day =>
    { day := day
      type := "adaptive_assessment"
      description := "Progress evaluation and path adjustment"
      adaptive_actions := ["Assess learning progress",
        "Adjust difficulty if needed",
        "Modify pacing based on performance",
        "Update content recommendations"] })

/-- `MCPIntegration._add_mcp_features` (the parts of `mcp_features` the
claims inspect; the purely decorative `user_adaptations` strings are not
modelled). -/
def add_mcp_features (lp : LearningPath) : LearningPath :=
  { lp with
    mcp_adaptive_checkpoints := generate_checkpoints lp.duration_days
    personalization_level := "high" }

/-- The context dict built by `MCPIntegration._enhance_context_for_mcp`
(plus the `goal`/`duration`/`difficulty` keys `.update`d into it). -/
structure EnhancedContext where
  learning_style : String
  pace_preference : String
  previous_learning : List String
  time_per_day : String
  interests : List String
  current_level : String
  learning_velocity : String
  retention_rate : ℚ
  goal : String
  duration : Nat
  difficulty : String
  deriving Repr, DecidableEq

/-- A Python exception value observed at the `generate_adaptive_path`
boundary. -/
inductive PyErr : Type where
  | exc (msg : String) : PyErr
  /-- `NameError`/`UnboundLocalError`: a local variable referenced before
  assignment. -/
  | nameError (var : String) : PyErr
  deriving Repr, DecidableEq

/-- `MCPIntegration.generate_adaptive_path`.  The try-body is
`enhanced_context = self._enhance_context_for_mcp(...)`, the LangChain
generation call, then `_add_mcp_features`; the except-handler calls the
Gemini MCP generator passing `context_data=enhanced_context`.

`enhanceStep` is the outcome of evaluating `_enhance_context_for_mcp` on the
caller's (duck-typed) `user_context`; `langchainStep` the outcome of
`langchain_integration.create_learning_path_with_context`; `geminiFallback`
the result of `gemini_client.generate_mcp_learning_path` (which catches all
exceptions internally and falls back to its demo path, so it is total).

If the try-body raises before `enhanced_context` is assigned, the
except-handler's reference to `enhanced_context` raises
`UnboundLocalError`, which propagates to the caller. -/
def generate_adaptive_path (enhanceStep : Except PyErr EnhancedContext)
    (langchainStep : EnhancedContext → Except PyErr LearningPath)
    (geminiFallback : EnhancedContext → LearningPath) :
    Except PyErr LearningPath :=
  match enhanceStep with
  | .error _ => .error (PyErr.nameError "enhanced_context")
  | .ok ctx =>
    match langchainStep ctx with
    | .ok lp => .ok (add_mcp_features lp)
    | .error _ => .ok (geminiFallback ctx)

/-! ## Learning service (`src/services/learning_service.py`) -/

/-- `LearningService.create_learning_path` up to the generation stage, for
the `'normal'` path type (the persistence / multimedia-enrichment stages
that follow are external collaborators).  The only validation in the source
is `if not goal or duration < 1 or duration > 90`; on violation it returns
`None` without attempting generation, otherwise the generator is invoked. -/
def create_learning_path (outcome : GeminiOutcome) (goal : String)
    (duration : Int) (difficulty : String) (include_practice : Bool) :
    Option LearningPath :=
  if goal = "" ∨ duration < 1 ∨ duration > 90 then none
  else some (generate_normal_learning_path outcome goal duration.toNat
    difficulty include_practice)

/-- The `progress` document read by
`LearningService._calculate_completion_percentage`. -/
structure ProgressDoc where
  completed_days : List (String × Bool)
  deriving Repr, DecidableEq

/-- `LearningService._calculate_completion_percentage`; `none` models
malformed progress data (the `except` branch returns 0), and the division
is guarded by `if total_days > 0`. -/
def calculate_completion_percentage (progress : Option ProgressDoc)
    (total_days : Nat) : ℚ :=
  match progress with
  | none => 0
  | some doc =>
    let completed_count := (doc.completed_days.map Prod.snd).countP (fun b => b)
    if total_days > 0 then (completed_count : ℚ) / total_days * 100 else 0

/-! ## Adaptation advisor (`MCPIntegration.suggest_adaptations`) -/

/-- One adaptation suggestion. -/
structure Suggestion where
  type : String
  priority : String
  description : String
  action : String
  deriving Repr, DecidableEq

/-- The `difficulty_reduction` suggestion literal of `suggest_adaptations`. -/
def difficultyReduction : Suggestion :=
  { type := "difficulty_reduction", priority := "high"
    description := "Consider reducing content difficulty"
    action := "Simplify concepts and add more examples" }

/-- The `difficulty_increase` suggestion literal of `suggest_adaptations`. -/
def difficultyIncrease : Suggestion :=
  { type := "difficulty_increase", priority := "medium"
    description := "Consider adding more challenging content"
    action := "Introduce advanced concepts and complex exercises" }

/-- The `content_reduction` suggestion literal of `suggest_adaptations`. -/
def contentReduction : Suggestion :=
  { type := "content_reduction", priority := "medium"
    description := "Daily content might be too much"
    action := "Break content into smaller chunks" }

/-- The `content_expansion` suggestion literal of `suggest_adaptations`. -/
def contentExpansion : Suggestion :=
  { type := "content_expansion", priority := "low"
    description := "Could add more comprehensive content"
    action := "Include additional exercises and examples" }

/-- The suggestion list built from the latest trend by
`suggest_adaptations` (completion-rate `if/elif` pair, then time-spent
`if/elif` pair). -/
def suggestionsFromTrend (t : Trend) : List Suggestion :=
  (if t.completion_rate < 50 then [difficultyReduction]
  else if t.completion_rate > 90 then [difficultyIncrease]
  else []) ++
  (if t.avg_time_spent > 120 then [contentReduction]
  else if t.avg_time_spent < 30 then [contentExpansion]
  else [])

/-- `MCPIntegration.suggest_adaptations`: empty when the (user, path) has no
analytics or no trends; otherwise the rules applied to `trends[-1]`. -/
def suggest_adaptations (store : AnalyticsStore) (user_id path_id : String) :
    List Suggestion :=
  match (store.lookup user_id).bind (fun m => m.lookup path_id) with
  | none => []
  | some a =>
    match a.performance_trends.getLast? with
    | none => []
    | some t => suggestionsFromTrend t

/-! ## Report sequences and the trend they determine

`trackPath` is the state transformer of one progress report; a whole
session for one (user, path) is a fold of reports over the empty analytics
value.  The definitions below characterize the resulting analytics state
directly in terms of the report sequence. -/

/-- A sequence of progress reports for one (user, path), each paired with
the wall-clock timestamp of its `track_learning_progress` call. -/
abbrev ReportSeq : Type := List (String × ProgressIn)

/-- The per-(user, path) analytics state after a sequence of reports. -/
def runPath (calls : ReportSeq) : PathAnalytics :=
  calls.foldl (fun a c => trackPath c.1 a c.2) emptyAnalytics

/-- The distinct reported day numbers, in order of first report
(= the key order of the `daily_progress` dict). -/
def reportedDays (calls : ReportSeq) : List Nat :=
  calls.foldl (fun acc c => if c.2.day ∈ acc then acc else acc ++ [c.2.day]) []

/-- The record the last report for day `d` left behind
(= the value of `daily_progress[str(d)]`). -/
def lastRecordFor (calls : ReportSeq) (d : Nat) : DayRecord :=
  match (calls.filter (fun c => c.2.day == d)).getLast? with
  | some c => recordOf c.1 c.2
  | none => { completed := false, time_spent := 0, difficulty_rating := 0,
              satisfaction := 0, timestamp := "" }

/-- The window `_update_performance_trends` actually analyzes: the last at
most 7 distinct days **in first-report order**. -/
def windowDays (calls : ReportSeq) : List Nat :=
  (reportedDays calls).drop ((reportedDays calls).length - 7)

/-- The trend the last report of a (nonempty) sequence computes, expressed
directly over the report sequence. -/
def specTrend (calls : ReportSeq) : Trend :=
  { date := (calls.map Prod.fst).getLastD ""
    completion_rate :=
      (((windowDays calls).countP (fun d => (lastRecordFor calls d).completed) : ℚ) /
        (windowDays calls).length) * 100
    avg_time_spent :=
      ((windowDays calls).map (fun d => (lastRecordFor calls d).time_spent)).sum /
        (windowDays calls).length
    avg_difficulty_rating :=
      ((windowDays calls).map (fun d => (lastRecordFor calls d).difficulty_rating)).sum /
        (windowDays calls).length
    days_analyzed := (windowDays calls).length }

/-- Modelled from the claim's words (C4): the window of "the most recently
reported at most 7 days selected by day number" — the at most 7 largest
distinct reported day numbers. -/
def claimWindowDays (calls : ReportSeq) : List Nat :=
  (reportedDays calls).filter
    (fun d => ((reportedDays calls).filter (fun e => d < e)).length < 7)

/-- Modelled from the claim's words (C4): the completion rate over
`claimWindowDays`. -/
def claimCompletionRate (calls : ReportSeq) : ℚ :=
  (((claimWindowDays calls).countP (fun d => (lastRecordFor calls d).completed) : ℚ) /
    (claimWindowDays calls).length) * 100

/-- The fields of a trend other than its wall-clock `date` stamp. -/
def stripDate (t : Trend) : ℚ × ℚ × ℚ × Nat :=
  (t.completion_rate, t.avg_time_spent, t.avg_difficulty_rating, t.days_analyzed)

/-! ## Concrete instances used in the analysis -/

/-- A parsed collaborator response that violates the structural invariant:
it has no daily plans at all although `duration_days = 1`. -/
def badParsedPath : LearningPath :=
  { goal := "g", duration_days := 1, difficulty := "beginner",
    type := "", daily_plans := [] }

/-- Eight progress reports: day 5 first (the only completed one), then
days 1, 2, 3, 4, 6, 7, 8. -/
def outOfOrderCalls : ReportSeq :=
  [("t1", ⟨5, true, 60, 3, 4⟩), ("t2", ⟨1, false, 60, 3, 4⟩),
   ("t3", ⟨2, false, 60, 3, 4⟩), ("t4", ⟨3, false, 60, 3, 4⟩),
   ("t5", ⟨4, false, 60, 3, 4⟩), ("t6", ⟨6, false, 60, 3, 4⟩),
   ("t7", ⟨7, false, 60, 3, 4⟩), ("t8", ⟨8, false, 60, 3, 4⟩)]

/-- The example trend of the spec: completion rate 45, one hour per day. -/
def exampleTrend45 : Trend :=
  { date := "", completion_rate := 45, avg_time_spent := 60,
    avg_difficulty_rating := 3, days_analyzed := 7 }

/-- The example trend of the spec: completion rate 95, 150 minutes/day. -/
def exampleTrend95 : Trend :=
  { date := "", completion_rate := 95, avg_time_spent := 150,
    avg_difficulty_rating := 3, days_analyzed := 7 }

/-- An analytics store holding `exampleTrend45` for user `u`, path `p`. -/
def exampleStore45 : AnalyticsStore :=
  [("u", [("p", { daily_progress := [], performance_trends := [exampleTrend45],
                  adaptation_history := [] })])]

/-! ## Helper lemmas about the dict model and the analytics fold -/

theorem dictInsert_ne_nil {α β : Type} [BEq α] (d : List (α × β)) (k : α)
    (v : β) : dictInsert d k v ≠ [] := by
  unfold dictInsert
  split
  · rename_i h
    cases d with
    | nil => simp at h
    | cons p t => simp
  · simp

theorem lookup_dictInsert {α β : Type} [BEq α] [LawfulBEq α]
    (d : List (α × β)) (k : α) (v : β) :
    (dictInsert d k v).lookup k = some v := by
  induction d with
  | nil => simp [dictInsert, List.lookup]
  | cons p t ih =>
    rcases p with ⟨a, b⟩
    by_cases hak : a = k
    · subst hak
      have hcond : (((a, b) :: t).any (fun q => q.1 == a)) = true := by simp
      simp [dictInsert, hcond, List.lookup]
    · have hbeq : (a == k) = false := by simp [hak]
      have hka : (k == a) = false := by simp [Ne.symm hak]
      have h1 : dictInsert ((a, b) :: t) k v = (a, b) :: dictInsert t k v := by
        by_cases ht : t.any (fun q => q.1 == k) <;>
          simp [dictInsert, hbeq, ht]
      rw [h1, List.lookup, hka]
      exact ih

theorem trackPath_daily_progress (now : String) (a : PathAnalytics)
    (p : ProgressIn) :
    (trackPath now a p).daily_progress =
      dictInsert a.daily_progress p.day (recordOf now p) := by
  unfold trackPath update_performance_trends
  cases computeTrend now (dictInsert a.daily_progress p.day (recordOf now p)) <;>
    simp

theorem runPath_concat (calls : ReportSeq) (c : String × ProgressIn) :
    runPath (calls ++ [c]) = trackPath c.1 (runPath calls) c.2 := by
  unfold runPath
  rw [List.foldl_append]
  rfl

theorem reportedDays_concat (calls : ReportSeq) (c : String × ProgressIn) :
    reportedDays (calls ++ [c]) =
      if c.2.day ∈ reportedDays calls then reportedDays calls
      else reportedDays calls ++ [c.2.day] := by
  unfold reportedDays
  rw [List.foldl_append]
  rfl

theorem lastRecordFor_concat (calls : ReportSeq) (c : String × ProgressIn)
    (d : Nat) :
    lastRecordFor (calls ++ [c]) d =
      if c.2.day = d then recordOf c.1 c.2 else lastRecordFor calls d := by
  unfold lastRecordFor
  rw [List.filter_append]
  by_cases h : c.2.day = d
  · simp [h, List.getLast?_concat]
  · simp [h]

/-- The `daily_progress` dict after a report sequence: one entry per
distinct reported day, in first-report order, holding the last report's
record. -/
theorem runPath_daily_progress (calls : ReportSeq) :
    (runPath calls).daily_progress =
      (reportedDays calls).map (fun d => (d, lastRecordFor calls d)) := by
  induction calls using List.reverseRecOn with
  | nil => simp [runPath, reportedDays, emptyAnalytics]
  | append_singleton l c ih =>
    rw [runPath_concat, trackPath_daily_progress, ih, reportedDays_concat]
    by_cases hmem : c.2.day ∈ reportedDays l
    · have hany : (((reportedDays l).map
          (fun d => (d, lastRecordFor l d))).any
            (fun p => p.1 == c.2.day)) = true := by
        rw [List.any_eq_true]
        exact ⟨(c.2.day, lastRecordFor l c.2.day),
          List.mem_map.mpr ⟨c.2.day, hmem, rfl⟩, by simp⟩
      rw [dictInsert, if_pos hany, if_pos hmem, List.map_map]
      apply List.map_congr_left
      intro d _
      by_cases hdc : d = c.2.day
      · subst hdc
        simp [lastRecordFor_concat]
      · have : (c.2.day = d) = False := by
          simp [Ne.symm hdc]
        simp [lastRecordFor_concat, hdc, this]
    · have hany : (((reportedDays l).map
          (fun d => (d, lastRecordFor l d))).any
            (fun p => p.1 == c.2.day)) = false := by
        rw [Bool.eq_false_iff]
        intro hc
        rw [List.any_eq_true] at hc
        obtain ⟨q, hq, hbeq⟩ := hc
        obtain ⟨d, hd, rfl⟩ := List.mem_map.mp hq
        have hdc : d = c.2.day := by simpa using hbeq
        exact hmem (hdc ▸ hd)
      rw [dictInsert, if_neg (by simp [hany]), if_neg hmem, List.map_append]
      congr 1
      · apply List.map_congr_left
        intro d hd
        have hdc : ¬ (c.2.day = d) := fun h => hmem (h ▸ hd)
        simp [lastRecordFor_concat, hdc]
      · simp [lastRecordFor_concat]

theorem getLast?_append_drop {α : Type} (l : List α) (t : α) (k : Nat)
    (h : k ≤ l.length) : ((l ++ [t]).drop k).getLast? = some t := by
  rw [List.drop_append_of_le_length h]
  exact List.getLast?_concat _

theorem trackPath_trends (now : String) (a : PathAnalytics) (p : ProgressIn)
    (t : Trend)
    (ht : computeTrend now
      (dictInsert a.daily_progress p.day (recordOf now p)) = some t) :
    (trackPath now a p).performance_trends =
      (a.performance_trends ++ [t]).drop
        (a.performance_trends.length + 1 - 30) := by
  unfold trackPath update_performance_trends
  simp [ht]

theorem computeTrend_map (now : String) (D : List Nat) (f : Nat → DayRecord)
    (hD : D ≠ []) :
    computeTrend now (D.map (fun d => (d, f d))) =
      some { date := now
             completion_rate :=
               (((D.drop (D.length - 7)).countP
                   (fun d => (f d).completed) : ℚ) /
                 (D.drop (D.length - 7)).length) * 100
             avg_time_spent :=
               ((D.drop (D.length - 7)).map (fun d => (f d).time_spent)).sum /
                 (D.drop (D.length - 7)).length
             avg_difficulty_rating :=
               ((D.drop (D.length - 7)).map
                   (fun d => (f d).difficulty_rating)).sum /
                 (D.drop (D.length - 7)).length
             days_analyzed := (D.drop (D.length - 7)).length } := by
  have hpos : 0 < (D.drop (D.length - 7)).length := by
    rw [List.length_drop]
    have : 0 < D.length := List.length_pos.mpr hD
    omega
  unfold computeTrend
  have hlen : (D.map (fun d => (d, f d))).length = D.length := by simp
  have hdrop : (D.map (fun d => (d, f d))).drop (D.length - 7) =
      (D.drop (D.length - 7)).map (fun d => (d, f d)) :=
    (List.map_drop _ _ _).symm
  have hne : ¬(((D.drop (D.length - 7)).map
      (fun d => (d, f d))).isEmpty = true) := by
    rw [List.isEmpty_iff, List.map_eq_nil_iff]
    intro hcon
    rw [hcon] at hpos
    simp at hpos
  rw [hlen, hdrop, if_neg hne]
  simp only [List.countP_map, List.map_map, List.length_map]
  rfl

/-- After a nonempty report sequence, the latest trend on file is exactly
`specTrend` of the sequence. -/
theorem runPath_trends_getLast (calls : ReportSeq) (h : calls ≠ []) :
    (runPath calls).performance_trends.getLast? = some (specTrend calls) := by
  obtain ⟨l, c, rfl⟩ : ∃ l c, calls = l ++ [c] := by
    rcases List.eq_nil_or_concat' calls with h0 | ⟨l, c, rfl⟩
    · exact absurd h0 h
    · exact ⟨l, c, rfl⟩
  have hdp : dictInsert (runPath l).daily_progress c.2.day
        (recordOf c.1 c.2) =
      (reportedDays (l ++ [c])).map
        (fun d => (d, lastRecordFor (l ++ [c]) d)) := by
    rw [← trackPath_daily_progress c.1 (runPath l) c.2, ← runPath_concat,
      runPath_daily_progress]
  have hD : reportedDays (l ++ [c]) ≠ [] := by
    rw [reportedDays_concat]
    split
    · rename_i hmem
      intro h0
      rw [h0] at hmem
      simp at hmem
    · simp
  have hct : computeTrend c.1 (dictInsert (runPath l).daily_progress
      c.2.day (recordOf c.1 c.2)) = some (specTrend (l ++ [c])) := by
    rw [hdp, computeTrend_map _ _ _ hD]
    unfold specTrend windowDays
    simp [List.getLastD_concat]
  rw [runPath_concat, trackPath_trends _ _ _ _ hct, getLast?_append_drop]
  omega

theorem computeTrend_isSome (now : String) (dp : List (Nat × DayRecord))
    (h : dp ≠ []) : (computeTrend now dp).isSome := by
  unfold computeTrend
  rw [if_neg]
  · simp
  · rw [List.isEmpty_iff]
    intro hcon
    have h1 : 0 < dp.length := List.length_pos.mpr h
    have h2 := congrArg List.length hcon
    rw [List.length_drop] at h2
    simp at h2
    omega

theorem trackPath_trends_ne_nil (now : String) (a : PathAnalytics)
    (p : ProgressIn) : (trackPath now a p).performance_trends ≠ [] := by
  have hne := dictInsert_ne_nil a.daily_progress p.day (recordOf now p)
  obtain ⟨t, ht⟩ := Option.isSome_iff_exists.mp (computeTrend_isSome now _ hne)
  rw [trackPath_trends now a p t ht]
  intro hcon
  have hlen := congrArg List.length hcon
  rw [List.length_drop] at hlen
  simp at hlen
  omega

theorem mem_suggestions_dr (t : Trend) :
    difficultyReduction ∈ suggestionsFromTrend t ↔ t.completion_rate < 50 := by
  unfold suggestionsFromTrend
  split_ifs <;> first
    | exact iff_of_true (by decide) (by linarith)
    | exact iff_of_false (by decide) (by intro hc; linarith)

theorem mem_suggestions_di (t : Trend) :
    difficultyIncrease ∈ suggestionsFromTrend t ↔ t.completion_rate > 90 := by
  unfold suggestionsFromTrend
  split_ifs <;> first
    | exact iff_of_true (by decide) (by linarith)
    | exact iff_of_false (by decide) (by intro hc; linarith)

theorem mem_suggestions_cr (t : Trend) :
    contentReduction ∈ suggestionsFromTrend t ↔ t.avg_time_spent > 120 := by
  unfold suggestionsFromTrend
  split_ifs <;> first
    | exact iff_of_true (by decide) (by linarith)
    | exact iff_of_false (by decide) (by intro hc; linarith)

theorem mem_suggestions_ce (t : Trend) :
    contentExpansion ∈ suggestionsFromTrend t ↔ t.avg_time_spent < 30 := by
  unfold suggestionsFromTrend
  split_ifs <;> first
    | exact iff_of_true (by decide) (by linarith)
    | exact iff_of_false (by decide) (by intro hc; linarith)

theorem mem_pyRange3 (stop x : Nat) :
    x ∈ pyRange 3 stop 3 ↔ 3 ∣ x ∧ 3 ≤ x ∧ x < stop := by
  unfold pyRange
  rw [List.mem_range']
  constructor
  · rintro ⟨i, hi, rfl⟩
    exact ⟨⟨1 + i, by ring⟩, by omega, by omega⟩
  · rintro ⟨⟨k, rfl⟩, h3, hlt⟩
    exact ⟨k - 1, by omega, by omega⟩

/-! ## Claim theorems -/

/-- Claim C1, counterexample: a structurally invalid parsed collaborator
response (duration 1 but no daily plans) is returned as-is by
`generate_normal_learning_path` — it is not detected and not replaced by
the fallback, so the returned path does not have day numbers `1..d`. -/
theorem parsed_response_not_validated :
    (generate_normal_learning_path (.parsed badParsedPath) "g" 1 "beginner"
        true).daily_plans.map DailyPlan.day = [] ∧
    (generate_normal_learning_path (.parsed badParsedPath) "g" 1 "beginner"
        true).daily_plans.length ≠ 1 ∧
    generate_normal_learning_path (.parsed badParsedPath) "g" 1 "beginner"
        true ≠ generate_demo_learning_path "g" 1 "beginner" true := by
  decide

/-- Claim C1, amended: the deterministic fallback path always has exactly
`duration` daily plans with day numbers `1..duration`, and every
non-parsed collaborator outcome (no client, exception, empty response)
falls back to it; but a parsed response is returned with its `daily_plans`
unchanged — no structural validation is performed on it. -/
theorem fallback_structural_invariant (goal : String) (duration : Nat)
    (difficulty : String) (ip : Bool) :
    ((generate_demo_learning_path goal duration difficulty ip).daily_plans.map
        DailyPlan.day = List.range' 1 duration) ∧
    ((generate_demo_learning_path goal duration difficulty
        ip).daily_plans.length = duration) ∧
    (generate_normal_learning_path .noClient goal duration difficulty ip =
      generate_demo_learning_path goal duration difficulty ip) ∧
    (∀ msg, generate_normal_learning_path (.error msg) goal duration
      difficulty ip = generate_demo_learning_path goal duration difficulty ip) ∧
    (generate_normal_learning_path .emptyText goal duration difficulty ip =
      generate_demo_learning_path goal duration difficulty ip) ∧
    (∀ lp, (generate_normal_learning_path (.parsed lp) goal duration
      difficulty ip).daily_plans = lp.daily_plans) := by
  refine ⟨?_, ?_, rfl, fun msg => rfl, rfl, fun lp => rfl⟩
  · unfold generate_demo_learning_path pyRange
    rw [List.map_map]
    have harith : (duration + 1 - 1 + 1 - 1) / 1 = duration := by omega
    rw [harith]
    exact List.map_id' _
  · unfold generate_demo_learning_path pyRange
    rw [List.length_map, List.length_range']
    omega

/-- Claim C2, counterexample: if the try-body of `generate_adaptive_path`
fails before `enhanced_context` is assigned, the except-handler references
the unbound local and the caller receives an error instead of a
LearningPath. -/
theorem adaptive_path_error_propagates :
    generate_adaptive_path (.error (.exc "context enhancement failed"))
      (fun _ => .ok (generate_demo_mcp_learning_path "g" 7 "beginner"))
      (fun _ => generate_demo_mcp_learning_path "g" 7 "beginner") =
      .error (.nameError "enhanced_context") := rfl

/-- Claim C2, amended: once the context-enhancement step has succeeded,
any failure of the personalized generation step is absorbed — the caller
receives the (total) Gemini fallback's LearningPath; but when the
context-enhancement step itself fails, the except-handler's reference to
the unbound `enhanced_context` propagates an error to the caller. -/
theorem adaptive_path_absorbs_after_enhance (ctx : EnhancedContext)
    (langchainStep : EnhancedContext → Except PyErr LearningPath)
    (geminiFallback : EnhancedContext → LearningPath) :
    (∃ lp, generate_adaptive_path (.ok ctx) langchainStep geminiFallback =
      .ok lp) ∧
    (∀ e : PyErr, generate_adaptive_path (.error e) langchainStep
      geminiFallback = .error (.nameError "enhanced_context")) := by
  constructor
  · cases h : langchainStep ctx with
    | ok lp =>
      exact ⟨add_mcp_features lp, by simp [generate_adaptive_path, h]⟩
    | error e =>
      exact ⟨geminiFallback ctx, by simp [generate_adaptive_path, h]⟩
  · intro e
    rfl

/-- Claim C3, counterexample: a one-word goal (the single character `x`)
with an invalid difficulty passes validation — `create_learning_path`
attempts generation instead of failing, because only goal non-emptiness
and the duration range are checked. -/
theorem create_path_partial_validation :
    "x".toList = ['x'] ∧
    "bogus" ∉ ["beginner", "intermediate", "advanced", "expert"] ∧
    create_learning_path .noClient "x" 7 "bogus" true =
      some (generate_normal_learning_path .noClient "x" 7 "bogus" true) := by
  refine ⟨rfl, by decide, rfl⟩

/-- Claim C3, amended: `create_learning_path` fails (returns `None`)
exactly when the goal is empty or the duration is outside `[1, 90]`, and
otherwise proceeds to generation; the word count, the 200-character limit
and the difficulty enum are not checked. -/
theorem create_path_validation_spec (outcome : GeminiOutcome) (goal : String)
    (duration : Int) (difficulty : String) (ip : Bool) :
    (create_learning_path outcome goal duration difficulty ip = none ↔
      goal = "" ∨ duration < 1 ∨ duration > 90) ∧
    (¬(goal = "" ∨ duration < 1 ∨ duration > 90) →
      create_learning_path outcome goal duration difficulty ip =
        some (generate_normal_learning_path outcome goal duration.toNat
          difficulty ip)) := by
  unfold create_learning_path
  constructor
  · split_ifs with h
    · simp [h]
    · simp [h]
  · intro h
    rw [if_neg h]

/-- Claim C3, witness for the amended theorem at a valid input. -/
theorem create_path_validation_spec_witness :
    create_learning_path .noClient "python basics" 7 "beginner" true =
      some (generate_normal_learning_path .noClient "python basics" 7
        "beginner" true) :=
  (create_path_validation_spec .noClient "python basics" 7 "beginner"
    true).2 (by decide)

/-- Claim C5, counterexample: the demo MCP path built for `duration = 21`
has checkpoint strings only for days 3, 6, 9, 12, 15, 18 — day 21 gets no
checkpoint, because the source uses `range(3, duration, 3)` with an
exclusive stop bound. -/
theorem demo_mcp_checkpoints_exclusive :
    (generate_demo_mcp_learning_path "g" 21 "beginner").adaptation_points =
      ["Day 3: Progress checkpoint", "Day 6: Progress checkpoint",
       "Day 9: Progress checkpoint", "Day 12: Progress checkpoint",
       "Day 15: Progress checkpoint", "Day 18: Progress checkpoint"] ∧
    "Day 21: Progress checkpoint" ∉
      (generate_demo_mcp_learning_path "g" 21 "beginner").adaptation_points := by
  decide

/-- Claim C5, amended: the checkpoints injected by `_add_mcp_features` via
`_generate_checkpoints` occur at exactly the multiples of 3 that are `≤ d`;
the demo MCP fallback's `adaptation_points`, however, are built from
`range(3, d, 3)` and so occur at exactly the multiples of 3 that are
strictly less than `d`. -/
theorem checkpoint_days_spec (d day : Nat) (goal difficulty : String) :
    ((day ∈ (generate_checkpoints d).map Checkpoint.day) ↔
      3 ∣ day ∧ 3 ≤ day ∧ day ≤ d) ∧
    ((generate_demo_mcp_learning_path goal d difficulty).adaptation_points =
      (pyRange 3 d 3).map
        (fun i => "Day " ++ toString i ++ ": Progress checkpoint")) ∧
    ((day ∈ pyRange 3 d 3) ↔ 3 ∣ day ∧ 3 ≤ day ∧ day < d) := by
  refine ⟨?_, rfl, mem_pyRange3 d day⟩
  have h1 : (day ∈ (generate_checkpoints d).map Checkpoint.day) ↔
      3 ∣ day ∧ 3 ≤ day ∧ day < d + 1 := by
    simp [generate_checkpoints, mem_pyRange3]
  rw [h1]
  constructor
  · rintro ⟨ha, hb, hc⟩
    exact ⟨ha, hb, by omega⟩
  · rintro ⟨ha, hb, hc⟩
    exact ⟨ha, hb, by omega⟩

/-- Claim C9, counterexample: `collect_user_context` does not leave the
component state unchanged — it stores the built context in
`context_store`. -/
theorem collect_user_context_mutates_state :
    (collect_user_context ⟨[], []⟩ "u1" "2024-01-01T00:00:00").2 ≠
      (⟨[], []⟩ : MCPState) := by
  decide

/-- Claim C9, amended: `collect_user_context` always succeeds and returns
the context assembled from the fixed profile/history/preference/metric
defaults; it leaves `learning_analytics` unchanged, but it writes the
built context into `context_store[user_id]` — a component-state mutation. -/
theorem collect_user_context_spec (s : MCPState) (uid now : String) :
    (collect_user_context s uid now).1 =
      { user_id := uid, timestamp := now,
        learning_profile := get_learning_profile uid,
        progress_history := get_progress_history uid,
        preferences := get_user_preferences uid,
        performance_metrics := get_performance_metrics uid } ∧
    (collect_user_context s uid now).2.learning_analytics =
      s.learning_analytics ∧
    (collect_user_context s uid now).2.context_store =
      dictInsert s.context_store uid (collect_user_context s uid now).1 ∧
    (collect_user_context s uid now).2.context_store.lookup uid =
      some (collect_user_context s uid now).1 :=
  ⟨rfl, rfl, rfl, lookup_dictInsert _ _ _⟩

/-- Claim C10: `_calculate_completion_percentage` returns 0 when
`total_days` is 0 or the progress data is malformed, and otherwise
`completed_count / total_days * 100`. -/
theorem completion_percentage_guarded (progress : Option ProgressDoc)
    (total_days : Nat) :
    (calculate_completion_percentage progress 0 = 0) ∧
    (calculate_completion_percentage none total_days = 0) ∧
    (∀ doc : ProgressDoc, 0 < total_days →
      calculate_completion_percentage (some doc) total_days =
        ((doc.completed_days.map Prod.snd).countP (fun b => b) : ℚ) /
          total_days * 100) := by
  refine ⟨?_, rfl, ?_⟩
  · cases progress with
    | none => rfl
    | some doc => simp [calculate_completion_percentage]
  · intro doc h
    simp [calculate_completion_percentage, h]

/-- Claim C10, witness: one of two days completed gives 50 percent. -/
theorem completion_percentage_guarded_witness :
    calculate_completion_percentage
      (some ⟨[("1", true), ("2", false)]⟩) 2 = 50 := by
  have h := (completion_percentage_guarded
      (some ⟨[("1", true), ("2", false)]⟩) 2).2.2
    ⟨[("1", true), ("2", false)]⟩ (by norm_num)
  rw [h]
  norm_num [List.countP, List.countP.go]

/-- Claim C6: the advisor evaluates exactly the four rules on the latest
trend — `completion_rate < 50` fires `difficulty_reduction` (high),
`completion_rate > 90` fires `difficulty_increase` (medium),
`avg_time_spent > 120` fires `content_reduction` (medium),
`avg_time_spent < 30` fires `content_expansion` (low) — independently and
non-exclusively; the 45/60 example yields exactly the high-priority
difficulty reduction, and the 95/150 example yields both the difficulty
increase and the content reduction. -/
theorem suggest_adaptations_rules_spec (store : AnalyticsStore)
    (uid pid : String) (userMap : List (String × PathAnalytics))
    (a : PathAnalytics) (t : Trend)
    (hu : store.lookup uid = some userMap)
    (hp : userMap.lookup pid = some a)
    (ht : a.performance_trends.getLast? = some t) :
    (difficultyReduction ∈ suggest_adaptations store uid pid ↔
      t.completion_rate < 50) ∧
    (difficultyIncrease ∈ suggest_adaptations store uid pid ↔
      t.completion_rate > 90) ∧
    (contentReduction ∈ suggest_adaptations store uid pid ↔
      t.avg_time_spent > 120) ∧
    (contentExpansion ∈ suggest_adaptations store uid pid ↔
      t.avg_time_spent < 30) ∧
    difficultyReduction.priority = "high" ∧
    difficultyIncrease.priority = "medium" ∧
    contentReduction.priority = "medium" ∧
    contentExpansion.priority = "low" ∧
    suggestionsFromTrend exampleTrend45 = [difficultyReduction] ∧
    suggestionsFromTrend exampleTrend95 =
      [difficultyIncrease, contentReduction] := by
  have hs : suggest_adaptations store uid pid = suggestionsFromTrend t := by
    simp [suggest_adaptations, hu, hp, ht]
  rw [hs]
  exact ⟨mem_suggestions_dr t, mem_suggestions_di t, mem_suggestions_cr t,
    mem_suggestions_ce t, rfl, rfl, rfl, rfl, by decide, by decide⟩

/-- Claim C6, witness: on a store whose latest trend is the 45/60 example,
the advisor's output contains the difficulty-reduction suggestion. -/
theorem suggest_adaptations_rules_witness :
    difficultyReduction ∈ suggest_adaptations exampleStore45 "u" "p" :=
  ((suggest_adaptations_rules_spec exampleStore45 "u" "p" _ _ exampleTrend45
    rfl rfl rfl).1).mpr (by norm_num [exampleTrend45])

/-- Claim C7, counterexample: day 0 — outside every path's
`[1, duration_days]` — is accepted by `track_learning_progress`: the
record is upserted and a trend recomputed; there is no day validation and
no failure path. -/
theorem track_accepts_out_of_range_day :
    ((track_learning_progress "t0" [] "u" "p"
        ⟨0, true, 60, 3, 4⟩).2.daily_progress.lookup 0 =
      some ⟨true, 60, 3, 4, "t0"⟩) ∧
    (track_learning_progress "t0" [] "u" "p"
        ⟨0, true, 60, 3, 4⟩).2.performance_trends ≠ [] := by
  decide

/-- Claim C7, amended: `track_learning_progress` performs no validation of
the `day` argument: for every day value whatsoever the record is upserted
under that day and a fresh trend is appended. -/
theorem track_no_day_validation (now : String) (store : AnalyticsStore)
    (uid pid : String) (p : ProgressIn) :
    ((track_learning_progress now store uid pid p).2.daily_progress.lookup
      p.day = some (recordOf now p)) ∧
    (track_learning_progress now store uid pid p).2.performance_trends ≠
      [] := by
  constructor
  · have h2 : (track_learning_progress now store uid pid p).2 =
        trackPath now ((((store.lookup uid).getD []).lookup pid).getD
          emptyAnalytics) p := rfl
    rw [h2, trackPath_daily_progress]
    exact lookup_dictInsert _ _ _
  · exact trackPath_trends_ne_nil now _ p

/-- Claim C4, counterexample: reports for days 5, 1, 2, 3, 4, 6, 7, 8, with
day 5 the only completed one.  The analyzed window is the last 7 days in
first-report order — day 5 falls out — so the computed completion rate is
0, while the rate over the 7 largest reported day numbers (the claim's
window, which retains day 5) is 100/7. -/
theorem trend_window_not_by_day_number :
    ((runPath outOfOrderCalls).performance_trends.getLast?).map
      Trend.completion_rate = some 0 ∧
    claimCompletionRate outOfOrderCalls = 100 / 7 ∧
    ((runPath outOfOrderCalls).performance_trends.getLast?).map
      Trend.completion_rate ≠ some (claimCompletionRate outOfOrderCalls) := by
  have hlast := runPath_trends_getLast outOfOrderCalls (by decide)
  have hc : (windowDays outOfOrderCalls).countP
      (fun d => (lastRecordFor outOfOrderCalls d).completed) = 0 := by decide
  have hl : (windowDays outOfOrderCalls).length = 7 := by decide
  have h1 : ((runPath outOfOrderCalls).performance_trends.getLast?).map
      Trend.completion_rate = some 0 := by
    rw [hlast]
    show some (specTrend outOfOrderCalls).completion_rate = some 0
    have hval : (specTrend outOfOrderCalls).completion_rate = 0 := by
      unfold specTrend
      dsimp only
      rw [hc, hl]
      norm_num
    rw [hval]
  have h2 : claimCompletionRate outOfOrderCalls = 100 / 7 := by
    have hcc : (claimWindowDays outOfOrderCalls).countP
        (fun d => (lastRecordFor outOfOrderCalls d).completed) = 1 := by decide
    have hcl : (claimWindowDays outOfOrderCalls).length = 7 := by decide
    unfold claimCompletionRate
    rw [hcc, hcl]
    norm_num
  refine ⟨h1, h2, ?_⟩
  rw [h1, h2]
  intro hcon
  have hinj := Option.some.inj hcon
  norm_num at hinj

/-- Claim C4, amended: the recomputed trend is taken over the most recently
*first-reported* at most 7 days — the last at most 7 keys of the
`daily_progress` dict in insertion order, not by day number — and over that
window `completion_rate` is the percentage of completed records,
`avg_time_spent` and `avg_difficulty_rating` are the arithmetic means, and
`days_analyzed` is the window size. -/
theorem trend_window_insertion_order (calls : ReportSeq) (h : calls ≠ []) :
    ∃ t : Trend, (runPath calls).performance_trends.getLast? = some t ∧
      t.days_analyzed = (windowDays calls).length ∧
      t.completion_rate =
        (((windowDays calls).countP
            (fun d => (lastRecordFor calls d).completed) : ℚ) /
          (windowDays calls).length) * 100 ∧
      t.avg_time_spent =
        ((windowDays calls).map
            (fun d => (lastRecordFor calls d).time_spent)).sum /
          (windowDays calls).length ∧
      t.avg_difficulty_rating =
        ((windowDays calls).map
            (fun d => (lastRecordFor calls d).difficulty_rating)).sum /
          (windowDays calls).length :=
  ⟨specTrend calls, runPath_trends_getLast calls h, rfl, rfl, rfl, rfl⟩

/-- Claim C4, witness for the amended theorem: a single report yields a
one-day window. -/
theorem trend_window_insertion_order_witness :
    (((runPath [("t1", ⟨5, true, 60, 3, 4⟩)]).performance_trends.getLast?).map
      Trend.days_analyzed) = some 1 := by
  obtain ⟨t, h1, h2, _⟩ :=
    trend_window_insertion_order [("t1", ⟨5, true, 60, 3, 4⟩)] (by decide)
  rw [h1]
  show some t.days_analyzed = some 1
  rw [h2]
  decide

/-- Claim C8: reporting the same (day, fields) twice in succession (with
possibly different wall-clock stamps) yields a latest trend with the same
completion rate, averages and window size as reporting it once. -/
theorem report_twice_same_trend (calls : ReportSeq) (n1 n2 : String)
    (p : ProgressIn) :
    ((runPath (calls ++ [(n1, p), (n2, p)])).performance_trends.getLast?).map
        stripDate =
      ((runPath (calls ++ [(n1, p)])).performance_trends.getLast?).map
        stripDate := by
  have hsplit : calls ++ [(n1, p), (n2, p)] =
      (calls ++ [(n1, p)]) ++ [(n2, p)] := by simp
  rw [hsplit, runPath_trends_getLast _ (by simp),
    runPath_trends_getLast _ (by simp)]
  have hdays : reportedDays ((calls ++ [(n1, p)]) ++ [(n2, p)]) =
      reportedDays (calls ++ [(n1, p)]) := by
    rw [reportedDays_concat]
    have hmem : (n2, p).2.day ∈ reportedDays (calls ++ [(n1, p)]) := by
      rw [reportedDays_concat]
      split
      · rename_i hm
        exact hm
      · exact List.mem_append_right _ (by simp)
    rw [if_pos hmem]
  have hcomp : (fun d =>
      (lastRecordFor ((calls ++ [(n1, p)]) ++ [(n2, p)]) d).completed) =
      (fun d => (lastRecordFor (calls ++ [(n1, p)]) d).completed) := by
    funext d
    rw [lastRecordFor_concat]
    by_cases hd : (n2, p).2.day = d
    · rw [if_pos hd]
      have hlast : lastRecordFor (calls ++ [(n1, p)]) d = recordOf n1 p := by
        rw [lastRecordFor_concat, if_pos hd]
      rw [hlast]
      rfl
    · rw [if_neg hd]
  have htime : (fun d =>
      (lastRecordFor ((calls ++ [(n1, p)]) ++ [(n2, p)]) d).time_spent) =
      (fun d => (lastRecordFor (calls ++ [(n1, p)]) d).time_spent) := by
    funext d
    rw [lastRecordFor_concat]
    by_cases hd : (n2, p).2.day = d
    · rw [if_pos hd]
      have hlast : lastRecordFor (calls ++ [(n1, p)]) d = recordOf n1 p := by
        rw [lastRecordFor_concat, if_pos hd]
      rw [hlast]
      rfl
    · rw [if_neg hd]
  have hdiff : (fun d =>
      (lastRecordFor ((calls ++ [(n1, p)]) ++ [(n2, p)])
        d).difficulty_rating) =
      (fun d => (lastRecordFor (calls ++ [(n1, p)]) d).difficulty_rating) := by
    funext d
    rw [lastRecordFor_concat]
    by_cases hd : (n2, p).2.day = d
    · rw [if_pos hd]
      have hlast : lastRecordFor (calls ++ [(n1, p)]) d = recordOf n1 p := by
        rw [lastRecordFor_concat, if_pos hd]
      rw [hlast]
      rfl
    · rw [if_neg hd]
  show some (stripDate (specTrend ((calls ++ [(n1, p)]) ++ [(n2, p)]))) =
    some (stripDate (specTrend (calls ++ [(n1, p)])))
  unfold stripDate specTrend windowDays
  rw [hdays, hcomp, htime, hdiff]

end AigenPath
